import Mathlib

/-!
# Magnum `TextureTools::distanceField`

A shallow embedding of `src/Magnum/TextureTools/DistanceField.cpp`.

* Queries of the current GL context, of the resource group and of the input
  texture are inputs of the model: they are the fields of `Env`.
* Every call the function makes on a GL object (framebuffer, shaders, program,
  textures, buffer, mesh) and the error output are recorded, in program order,
  as a list of `Effect`s. The declarations of the local objects `framebuffer`,
  `mesh` and `buffer` and their destruction at scope exit are not calls of the
  trace: the viewport of the framebuffer is carried by its `bind`, the state of
  the mesh by `draw`.
* A `Float` is an IEEE 754 binary32 value, held as the rational it denotes:
  every conversion and division rounds to the nearest such value, ties to
  even (`roundFloat`). Infinities, NaN and the sign of zero are not
  represented: a division by zero, which gives one of them on the device, is
  outside every statement below. The 32-bit `Int` subtraction of
  `Range2Di::size()` wraps modulo `2^32`.
* `CORRADE_INTERNAL_ASSERT_OUTPUT` and `MAGNUM_ASSERT_GL_EXTENSION_SUPPORTED`
  end the run (`Exit.aborted`) when the asserted call returns `false`.
-/

namespace Magnum

/-! ## Math types -/

/-- Two-component integer vector (`Vector2i`). -/
structure Vector2i where
  x : Int
  y : Int
deriving DecidableEq

/-- Two-component float vector (`Vector2`): each component is the rational
denoted by a `Float`. -/
structure Vector2 where
  x : ℚ
  y : ℚ
deriving DecidableEq

/-- Integer range (`Range2Di`): bottom-left and top-right corner. -/
structure Range2Di where
  min : Vector2i
  max : Vector2i
deriving DecidableEq

/-- Result of a 32-bit signed operation: the value modulo `2^32`, taken in
`[-2^31, 2^31)`. -/
def wrapInt (v : Int) : Int := (v + 2147483648) % 4294967296 - 2147483648

/-- Componentwise `Vector2i` subtraction. -/
def Vector2i.sub (a b : Vector2i) : Vector2i := ⟨wrapInt (a.x - b.x), wrapInt (a.y - b.y)⟩

/-- Size of the range, `Range2Di::size()`: `max - min`. -/
def Range2Di.size (r : Range2Di) : Vector2i := r.max.sub r.min

/-- Nearest integer, ties to the even one. -/
def roundHalfEven (q : ℚ) : Int :=
  if q - ⌊q⌋ < 1 / 2 then ⌊q⌋
  else if 1 / 2 < q - ⌊q⌋ then ⌊q⌋ + 1
  else if ⌊q⌋ % 2 = 0 then ⌊q⌋ else ⌊q⌋ + 1

/-- Binary exponent of the `Float` nearest to `q`: the `e` with
`2^e ≤ |q| < 2^(e+1)`, and `-126` below the normal range. -/
def floatExponent (q : ℚ) : Int := max (Int.log 2 |q|) (-126)

/-- Distance between neighbouring `Float` values around `q`: 24 significant
bits, so `2^(e-23)`. -/
def floatSpacing (q : ℚ) : ℚ := (2 : ℚ) ^ (floatExponent q - 23)

/-- The `Float` (IEEE 754 binary32) nearest to `q`, ties to even: the result
of every single-precision conversion and operation whose exact value is `q`.
Magnitudes of `2^128` and more, which become infinities, do not arise from
32-bit integers and their quotients. -/
def roundFloat (q : ℚ) : ℚ := (roundHalfEven (q / floatSpacing q) : ℚ) * floatSpacing q

/-- Conversion `Vector2(const Vector2i&)`: each component converted to `Float`. -/
def Vector2.ofVector2i (v : Vector2i) : Vector2 := ⟨roundFloat (v.x : ℚ), roundFloat (v.y : ℚ)⟩

/-- Componentwise `Float` division `Vector2/Vector2`. -/
def Vector2.div (a b : Vector2) : Vector2 := ⟨roundFloat (a.x / b.x), roundFloat (a.y / b.y)⟩

/-- Division `Float/Vector2`: the scalar divided, in `Float`, by every
component. -/
def Vector2.scalarDiv (s : ℚ) (v : Vector2) : Vector2 :=
  ⟨roundFloat (s / v.x), roundFloat (s / v.y)⟩

/-! ## GL types -/

/-- The values of `GL::Version` named by the source. -/
inductive Version
  | GL210 | GL300 | GL320 | GLES200 | GLES300
deriving DecidableEq

/-- Framebuffer completeness status, `GL::Framebuffer::Status`. -/
inductive Status
  | Complete
  | IncompleteAttachment
  | IncompleteMissingAttachment
  | IncompleteDrawBuffer
  | IncompleteReadBuffer
  | Unsupported
  | IncompleteMultisample
  | IncompleteLayerTargets
deriving DecidableEq

/-- Shader stage, `GL::Shader::Type`: the two stages used here. -/
inductive ShaderType
  | Vertex | Fragment
deriving DecidableEq

/-- Primitive type, `GL::MeshPrimitive`. -/
inductive MeshPrimitive
  | Points | Lines | LineLoop | LineStrip | Triangles | TriangleStrip | TriangleFan
deriving DecidableEq

/-- Texture `GL::Texture2D` as far as the function looks at it: the object and the
size of its level 0 as `imageSize(0)` reports it. -/
structure Texture2D where
  id : Nat
  imageSize0 : Vector2i
deriving DecidableEq

/-- Vertex buffer added to a mesh: offset and attribute location. -/
structure VertexBuffer where
  data : List Vector2
  offset : Int
  location : Nat
deriving DecidableEq

/-- Mesh state (`GL::Mesh`) set up by the function. -/
structure Mesh where
  primitive : MeshPrimitive
  count : Int
  vertexBuffers : List VertexBuffer
deriving DecidableEq

/-- Default-constructed `GL::Mesh`: triangles, zero count, no buffers. -/
def Mesh.new : Mesh := ⟨MeshPrimitive.Triangles, 0, []⟩

/-- Setter `Mesh::setPrimitive()`. -/
def Mesh.setPrimitive (m : Mesh) (p : MeshPrimitive) : Mesh := { m with primitive := p }

/-- Setter `Mesh::setCount()`. -/
def Mesh.setCount (m : Mesh) (c : Int) : Mesh := { m with count := c }

/-- Method `Mesh::addVertexBuffer()`. -/
def Mesh.addVertexBuffer (m : Mesh) (b : VertexBuffer) : Mesh :=
  { m with vertexBuffers := m.vertexBuffers ++ [b] }

/-- The location expression a `setUniform` call is given in the source. -/
inductive UniformSlot
  | scalingUniform
  | imageSizeInvertedUniform
  | textureData
deriving DecidableEq

/-- Value given to `setUniform`. -/
inductive UniformValue
  | vector2 (v : Vector2)
  | int (v : Int)
deriving DecidableEq

/-- Calls made on GL objects and the error output. A uniform location of
`none` is a read of a member that was never assigned. -/
inductive Effect
  | attachTexture (colorAttachment : Nat) (texture : Texture2D) (level : Int)
  | framebufferBind (viewport : Range2Di)
  | framebufferClearColor
  | checkStatusDraw
  | error (message : String) (status : Status)
  | createCompatibilityShader (version : Version) (type : ShaderType)
  | addSource (type : ShaderType) (source : String)
  | compile
  | attachShaders
  | bindAttributeLocation (location : Nat) (name : String)
  | link
  | setUniform (slot : UniformSlot) (location : Option Int) (value : UniformValue)
  | textureBind (texture : Texture2D) (unit : Int)
  | bufferSetData (data : List Vector2)
  | draw (mesh : Mesh)
deriving DecidableEq

/-- How a run ends: the function returns, or an assertion ends it. -/
inductive Exit
  | returned | aborted
deriving DecidableEq

/-- A run: the calls made, in order, and how it ended. -/
structure Run where
  trace : List Effect
  exit : Exit
deriving DecidableEq

/-- Build configuration and everything the function queries from outside. -/
structure Env where
  /-- Whether `MAGNUM_TARGET_GLES` is defined. -/
  targetGLES : Bool
  /-- Value of `Context::isVersionSupported()`. -/
  isVersionSupported : Version → Bool
  /-- Value of `isExtensionSupported<ARB::framebuffer_object>()`. -/
  framebufferObject : Bool
  /-- Value of `isExtensionSupported<ARB::explicit_uniform_location>()`. -/
  explicitUniformLocation : Bool
  /-- Value of `isExtensionSupported<ARB::shading_language_420pack>()`. -/
  shadingLanguage420pack : Bool
  /-- Value of `Utility::Resource::get()` on the group `MagnumTextureTools`. -/
  rsGet : String → String
  /-- Result of `Shader::compile()` for the given version and the sources
  added to the vertex and to the fragment stage. -/
  compileOk : Version → List String → List String → Bool
  /-- Result of `link()`, same arguments. -/
  linkOk : Version → List String → List String → Bool
  /-- Value of `uniformLocation()` on the linked program. -/
  uniformLocation : String → Int
  /-- Result of `framebuffer.checkStatus(FramebufferTarget::Draw)`. -/
  checkStatus : Status

/-- Modelled from the spec: the macros `CORRADE_INTERNAL_ASSERT_OUTPUT` and
`MAGNUM_ASSERT_GL_EXTENSION_SUPPORTED` are not among the sources. Per the spec
(4.2 and 7) a failed compile or link and a missing capability are fatal to the
invocation: the run ends at an assertion whose call gives `false`. -/
def assertionFails (call : Bool) : Bool := !call

/-! ## The shader -/

/-- The ordered candidate list handed to `supportedVersion` (lines 90-94). -/
def candidateVersions (gles : Bool) : List Version :=
  if gles then [Version.GLES300, Version.GLES200]
  else [Version.GL320, Version.GL300, Version.GL210]

/-- Modelled from the spec: `Context::supportedVersion` is defined in
`GL/Context.cpp`, which is not among the sources. Per the spec (4.1) it
returns the highest-ranked entry of the ordered candidate list that the
context supports, and a context that offers none of the candidates is a fatal
configuration error (here `none`). -/
def supportedVersion (isVersionSupported : Version → Bool) : List Version → Option Version
  | [] => none
  | v :: vs => if isVersionSupported v then some v else supportedVersion isVersionSupported vs

/-- The version the shader constructor selects. -/
def selectedVersion (env : Env) : Option Version :=
  supportedVersion env.isVersionSupported (candidateVersions env.targetGLES)

/-- Value of `isVersionSupported(GL300)`, on ES `isVersionSupported(GLES300)`
(lines 109-113 and 192-196). -/
def supportsGL300 (env : Env) : Bool :=
  env.isVersionSupported (if env.targetGLES then Version.GLES300 else Version.GL300)

/-- Value of `isVersionSupported(GL320)`, on ES `isVersionSupported(GLES300)`
(lines 126-130 and 177-181). -/
def supportsGL320 (env : Env) : Bool :=
  env.isVersionSupported (if env.targetGLES then Version.GLES300 else Version.GL320)

/-- Text of `Utility::formatString` applied to the `#define RADIUS` line and the
radius: the radius in decimal, then a newline. -/
def radiusDefine (radius : Int) : String :=
  "#define RADIUS " ++ toString radius ++ "\n"

/-- Attribute location `Position::Location` of `GL::Attribute<0, Vector2>`. -/
def positionLocation : Nat := 0

/-- Texture unit used by the shader, `TextureUnit = 7`. -/
def textureUnit : Int := 7

/-- Members of `DistanceFieldShader`: `scalingUniform` has the default `0`,
`imageSizeInvertedUniform` has no initialiser (`none` until assigned). -/
structure DistanceFieldShader where
  scalingUniform : Int := 0
  imageSizeInvertedUniform : Option Int := none
deriving DecidableEq

/-- Sources added to the vertex stage (lines 99-100). -/
def vertexSources (env : Env) : List String :=
  [env.rsGet "FullScreenTriangle.glsl", env.rsGet "DistanceFieldShader.vert"]

/-- Sources added to the fragment stage (lines 101-102). -/
def fragmentSources (env : Env) (radius : Int) : List String :=
  [radiusDefine radius, env.rsGet "DistanceFieldShader.frag"]

/-- Calls of the constructor up to and including `Shader::compile` for the
selected version `v` (lines 96-104). -/
def compileStage (env : Env) (radius : Int) (v : Version) : List Effect :=
  [Effect.createCompatibilityShader v ShaderType.Vertex,
   Effect.createCompatibilityShader v ShaderType.Fragment]
  ++ (vertexSources env).map (Effect.addSource ShaderType.Vertex)
  ++ (fragmentSources env radius).map (Effect.addSource ShaderType.Fragment)
  ++ [Effect.compile]

/-- Calls of the constructor from `attachShaders` to `link` (lines 106-118). -/
def linkStage (env : Env) : List Effect :=
  [Effect.attachShaders]
  ++ (if !supportsGL300 env then [Effect.bindAttributeLocation positionLocation "position"] else [])
  ++ [Effect.link]

/-- Uniform locations after lines 120-134. -/
def resolveUniforms (env : Env) : DistanceFieldShader :=
  let init : DistanceFieldShader := {}
  if env.targetGLES || !env.explicitUniformLocation then
    let s := { init with scalingUniform := env.uniformLocation "scaling" }
    if !supportsGL320 env then
      { s with imageSizeInvertedUniform := some (env.uniformLocation "imageSizeInverted") }
    else s
  else init

/-- Calls of lines 136-141: the sampler unit is set by hand unless
`ARB_shading_language_420pack` is there (always on ES). -/
def samplerStage (env : Env) : List Effect :=
  if env.targetGLES || !env.shadingLanguage420pack then
    [Effect.setUniform UniformSlot.textureData (some (env.uniformLocation "textureData"))
      (UniformValue.int textureUnit)]
  else []

/-- Constructor `DistanceFieldShader::DistanceFieldShader(Int radius)`: the
calls it makes and the object built, `none` when an assertion ends the run. -/
def DistanceFieldShader.new (env : Env) (radius : Int) :
    List Effect × Option DistanceFieldShader :=
  match selectedVersion env with
  | none => ([], none)
  | some v =>
    if assertionFails (env.compileOk v (vertexSources env) (fragmentSources env radius)) then
      (compileStage env radius v, none)
    else if assertionFails (env.linkOk v (vertexSources env) (fragmentSources env radius)) then
      (compileStage env radius v ++ linkStage env, none)
    else
      (compileStage env radius v ++ linkStage env ++ samplerStage env,
       some (resolveUniforms env))

/-- Method `setScaling()`. -/
def DistanceFieldShader.setScaling (s : DistanceFieldShader) (scaling : Vector2) : Effect :=
  Effect.setUniform UniformSlot.scalingUniform (some s.scalingUniform) (UniformValue.vector2 scaling)

/-- Method `setImageSizeInverted()`. -/
def DistanceFieldShader.setImageSizeInverted (s : DistanceFieldShader) (size : Vector2) : Effect :=
  Effect.setUniform UniformSlot.imageSizeInvertedUniform s.imageSizeInvertedUniform
    (UniformValue.vector2 size)

/-- Method `bindTexture()`. -/
def DistanceFieldShader.bindTexture (texture : Texture2D) : Effect :=
  Effect.textureBind texture textureUnit

/-! ## The function -/

/-- The `constexpr Vector2 triangle[]` of lines 198-202. -/
def triangle : List Vector2 := [⟨-1, 1⟩, ⟨-1, -3⟩, ⟨3, 1⟩]

/-- Text sent to `Error()` before the status (line 168). -/
def errorMessage : String :=
  "TextureTools::distanceField(): cannot render to given output texture, unexpected framebuffer status"

/-- The source image size used: `input.imageSize(0)` on desktop (line 158),
the `imageSize` argument on ES. -/
def sourceSize (env : Env) (input : Texture2D) (imageSize : Vector2i) : Vector2i :=
  if env.targetGLES then imageSize else input.imageSize0

/-- The value given to `setScaling` (line 174). -/
def scaling (env : Env) (input : Texture2D) (rectangle : Range2Di) (imageSize : Vector2i) :
    Vector2 :=
  (Vector2.ofVector2i (sourceSize env input imageSize)).div (Vector2.ofVector2i rectangle.size)

/-- Calls of lines 161-166: the framebuffer is set up, cleared and checked. -/
def framebufferStage (output : Texture2D) (rectangle : Range2Di) : List Effect :=
  [Effect.attachTexture 0 output 0, Effect.framebufferBind rectangle,
   Effect.framebufferClearColor, Effect.checkStatusDraw]

/-- Calls of lines 174-184 on the built shader. -/
def uniformStage (env : Env) (shader : DistanceFieldShader) (input : Texture2D)
    (rectangle : Range2Di) (imageSize : Vector2i) : List Effect :=
  [shader.setScaling (scaling env input rectangle imageSize),
   DistanceFieldShader.bindTexture input]
  ++ (if !supportsGL320 env then
        [shader.setImageSizeInverted
          (Vector2.scalarDiv 1 (Vector2.ofVector2i (sourceSize env input imageSize)))]
      else [])

/-- The mesh of lines 186-205. -/
def buildMesh (env : Env) : Mesh :=
  let mesh := (Mesh.new.setPrimitive MeshPrimitive.Triangles).setCount 3
  if !supportsGL300 env then mesh.addVertexBuffer ⟨triangle, 0, positionLocation⟩ else mesh

/-- Calls of lines 186-208: the optional buffer upload and the draw. -/
def drawStage (env : Env) : List Effect :=
  (if !supportsGL300 env then [Effect.bufferSetData triangle] else [])
  ++ [Effect.draw (buildMesh env)]

/-- The function `TextureTools::distanceField(input, output, rectangle, radius,
imageSize)`. -/
def distanceField (env : Env) (input output : Texture2D) (rectangle : Range2Di)
    (radius : Int) (imageSize : Vector2i) : Run :=
  if !env.targetGLES && assertionFails env.framebufferObject then ⟨[], Exit.aborted⟩
  else if env.checkStatus ≠ Status.Complete then
    ⟨framebufferStage output rectangle ++ [Effect.error errorMessage env.checkStatus],
     Exit.returned⟩
  else
    match DistanceFieldShader.new env radius with
    | (built, none) => ⟨framebufferStage output rectangle ++ built, Exit.aborted⟩
    | (built, some shader) =>
      ⟨framebufferStage output rectangle ++ built
        ++ uniformStage env shader input rectangle imageSize ++ drawStage env,
       Exit.returned⟩

/-- Whether the program is built: the constructor returns the shader object. -/
def programBuilt (env : Env) (radius : Int) : Bool :=
  (DistanceFieldShader.new env radius).2.isSome

/-- Calls made by the constructor. -/
def constructorTrace (env : Env) (radius : Int) : List Effect :=
  (DistanceFieldShader.new env radius).1

/-- Sources given to `addSource` for the fragment stage, in call order. -/
def fragmentAdded : List Effect → List String
  | [] => []
  | Effect.addSource ShaderType.Fragment s :: es => s :: fragmentAdded es
  | _ :: es => fragmentAdded es

/-- Closed triangle spanned by three points: the point is a convex combination
of the corners. -/
def inTriangle (t : List Vector2) (p : Vector2) : Prop :=
  match t with
  | [a, b, c] =>
    ∃ u v w : ℚ, 0 ≤ u ∧ 0 ≤ v ∧ 0 ≤ w ∧ u + v + w = 1 ∧
      p.x = u * a.x + v * b.x + w * c.x ∧ p.y = u * a.y + v * b.y + w * c.y
  | _ => False

/-! ## The distance kernel -/

/-- Modelled from the spec: the kernel body `DistanceFieldShader.frag` is a
resource that is not among the sources. Offsets of the square neighbourhood
of half-width `radius` (spec 4.5, step 3): all `(dx, dy)` with
`dx, dy ∈ [-radius, radius]`. -/
def searchOffsets (radius : Int) : List (Int × Int) :=
  let side := (List.range (2 * radius + 1).toNat).map (fun i => (i : Int) - radius)
  side.flatMap (fun dx => side.map (fun dy => (dx, dy)))

/-- Modelled from the spec: `DistanceFieldShader.frag` is not among the
sources. Minimum distance to a texel of the opposite classification within the
search window, initialised to `radius` (spec 4.5, step 3). The source image is
given as its thresholded classification `inside`; the square root is whatever
the device computes, given as `sqrt`. -/
def minDistance (inside : Int → Int → Bool) (sqrt : ℚ → ℚ) (radius : Int) (cx cy : Int) : ℚ :=
  (searchOffsets radius).foldl
    (fun acc d =>
      if inside (cx + d.1) (cy + d.2) != inside cx cy then
        min acc (sqrt ((d.1 : ℚ) * d.1 + (d.2 : ℚ) * d.2))
      else acc)
    (radius : ℚ)

/-- Modelled from the spec: `DistanceFieldShader.frag` is not among the
sources. The minimum distance signed by the centre classification: positive
inside, negative outside (spec 4.5, step 4). -/
def signedMinDistance (inside : Int → Int → Bool) (sqrt : ℚ → ℚ) (radius : Int)
    (cx cy : Int) : ℚ :=
  if inside cx cy then minDistance inside sqrt radius cx cy
  else - minDistance inside sqrt radius cx cy

/-- GLSL `clamp(v, lo, hi)`, that is `min(max(v, lo), hi)`. -/
def clamp (v lo hi : ℚ) : ℚ := min (max v lo) hi

/-- Modelled from the spec: `DistanceFieldShader.frag` is not among the
sources. The encoding of a signed distance (spec 4.5, step 5): divide by the
radius, clamp to `[-1, 1]`, remap by `0.5 + 0.5 * normalized`. -/
def encodeDistance (signedDistance : ℚ) (radius : Int) : ℚ :=
  1 / 2 + 1 / 2 * clamp (signedDistance / (radius : ℚ)) (-1) 1

/-- Modelled from the spec: `DistanceFieldShader.frag` is not among the
sources. The value written for the destination texel whose source coordinate
is `(cx, cy)` (spec 4.5, steps 2-6). -/
def kernel (inside : Int → Int → Bool) (sqrt : ℚ → ℚ) (radius : Int) (cx cy : Int) : ℚ :=
  encodeDistance (signedMinDistance inside sqrt radius cx cy) radius

/-! ## Example environments -/

/-- Resource group for the examples: every file holds its own name. -/
def exampleResource (name : String) : String := name

/-- Desktop context of OpenGL 3.3 with both extensions and a complete
framebuffer. -/
def desktopGL33 : Env where
  targetGLES := false
  isVersionSupported := fun v => v = Version.GL320 || v = Version.GL300 || v = Version.GL210
  framebufferObject := true
  explicitUniformLocation := true
  shadingLanguage420pack := true
  rsGet := exampleResource
  compileOk := fun _ _ _ => true
  linkOk := fun _ _ _ => true
  uniformLocation := fun _ => 0
  checkStatus := Status.Complete

/-- Desktop context of OpenGL 3.1 that offers `ARB_explicit_uniform_location`
(as Mesa drivers do): `GL320` is not supported, the extension is. -/
def desktopGL31 : Env :=
  { desktopGL33 with
    isVersionSupported := fun v => v = Version.GL300 || v = Version.GL210
    shadingLanguage420pack := false }

/-- Desktop context of OpenGL 2.1 without the newer extensions. -/
def desktopGL21 : Env :=
  { desktopGL33 with
    isVersionSupported := fun v => v = Version.GL210
    explicitUniformLocation := false
    shadingLanguage420pack := false
    uniformLocation := fun n => if n = "scaling" then 0 else if n = "imageSizeInverted" then 1 else 2 }

/-- An OpenGL ES 2.0 context. -/
def contextES2 : Env :=
  { desktopGL21 with
    targetGLES := true
    isVersionSupported := fun v => v = Version.GLES200
    framebufferObject := false }

/-- Desktop context whose driver fails to compile the shaders. -/
def brokenCompiler : Env :=
  { desktopGL33 with compileOk := fun _ _ _ => false }

/-- Desktop context in which the output texture cannot be rendered to. -/
def unsupportedOutput : Env :=
  { desktopGL33 with checkStatus := Status.Unsupported }

/-- Input texture of the examples, 64 by 64 texels. -/
def exampleInput : Texture2D := ⟨1, ⟨64, 64⟩⟩

/-- Output texture of the examples, 16 by 16 texels. -/
def exampleOutput : Texture2D := ⟨2, ⟨16, 16⟩⟩

/-- Destination rectangle of the examples, 16 by 16 texels. -/
def exampleRectangle : Range2Di := ⟨⟨0, 0⟩, ⟨16, 16⟩⟩

/-- Destination rectangle away from the origin, 48 by 48 texels. -/
def offsetRectangle : Range2Di := ⟨⟨16, 16⟩, ⟨64, 64⟩⟩

/-- Source image of the examples: the half-plane left of the origin. -/
def exampleImage (x _y : Int) : Bool := decide (x < 0)

/-! ## Structure of a run -/

theorem new_snd (env : Env) (radius : Int) :
    (DistanceFieldShader.new env radius).2
      = if programBuilt env radius then some (resolveUniforms env) else none := by
  unfold programBuilt DistanceFieldShader.new assertionFails
  split
  · simp
  · split_ifs <;> simp_all

theorem distanceField_eq (env : Env) (input output : Texture2D) (rectangle : Range2Di)
    (radius : Int) (imageSize : Vector2i) :
    distanceField env input output rectangle radius imageSize =
      if !env.targetGLES && !env.framebufferObject then ⟨[], Exit.aborted⟩
      else if env.checkStatus ≠ Status.Complete then
        ⟨framebufferStage output rectangle ++ [Effect.error errorMessage env.checkStatus],
         Exit.returned⟩
      else if programBuilt env radius then
        ⟨framebufferStage output rectangle ++ constructorTrace env radius
          ++ uniformStage env (resolveUniforms env) input rectangle imageSize ++ drawStage env,
         Exit.returned⟩
      else ⟨framebufferStage output rectangle ++ constructorTrace env radius, Exit.aborted⟩ := by
  have h := new_snd env radius
  unfold distanceField constructorTrace assertionFails
  split_ifs with h1 h2 h3 <;> simp_all <;> split <;> simp_all

theorem constructorTrace_cases (env : Env) (radius : Int) :
    (constructorTrace env radius = [] ∧ selectedVersion env = none
      ∧ programBuilt env radius = false) ∨
    ∃ v, selectedVersion env = some v ∧
      ((constructorTrace env radius = compileStage env radius v
          ∧ programBuilt env radius = false
          ∧ env.compileOk v (vertexSources env) (fragmentSources env radius) = false) ∨
       (constructorTrace env radius = compileStage env radius v ++ linkStage env
          ∧ programBuilt env radius = false
          ∧ env.compileOk v (vertexSources env) (fragmentSources env radius) = true
          ∧ env.linkOk v (vertexSources env) (fragmentSources env radius) = false) ∨
       (constructorTrace env radius
            = compileStage env radius v ++ linkStage env ++ samplerStage env
          ∧ programBuilt env radius = true
          ∧ env.compileOk v (vertexSources env) (fragmentSources env radius) = true
          ∧ env.linkOk v (vertexSources env) (fragmentSources env radius) = true)) := by
  unfold constructorTrace programBuilt DistanceFieldShader.new assertionFails
  cases hv : selectedVersion env with
  | none => simp
  | some v =>
    right
    refine ⟨v, rfl, ?_⟩
    cases hc : env.compileOk v (vertexSources env) (fragmentSources env radius) <;>
      cases hl : env.linkOk v (vertexSources env) (fragmentSources env radius) <;>
      simp [hc, hl]


theorem programBuilt_iff (env : Env) (radius : Int) :
    programBuilt env radius = true ↔
      ∃ v, selectedVersion env = some v
        ∧ env.compileOk v (vertexSources env) (fragmentSources env radius) = true
        ∧ env.linkOk v (vertexSources env) (fragmentSources env radius) = true := by
  rcases constructorTrace_cases env radius with ⟨_, h1, h2⟩ | ⟨v, hv, h | h | h⟩ <;>
    simp_all

theorem checked_iff (env : Env) (input output : Texture2D) (rectangle : Range2Di)
    (radius : Int) (imageSize : Vector2i) :
    Effect.checkStatusDraw ∈ (distanceField env input output rectangle radius imageSize).trace
      ↔ (env.targetGLES = true ∨ env.framebufferObject = true) := by
  rw [distanceField_eq]
  cases h1 : env.targetGLES <;> cases h2 : env.framebufferObject <;>
    simp [framebufferStage] <;> split_ifs <;> simp

theorem guard_of_checked (env : Env) (input output : Texture2D) (rectangle : Range2Di)
    (radius : Int) (imageSize : Vector2i)
    (hcheck : Effect.checkStatusDraw
      ∈ (distanceField env input output rectangle radius imageSize).trace) :
    (!env.targetGLES && !env.framebufferObject) = false := by
  rcases (checked_iff env input output rectangle radius imageSize).1 hcheck with h | h <;>
    simp [h]

/-- Trace of a run in which the check is made, the status is `Complete` and the
program builds. -/
theorem distanceField_success (env : Env) (input output : Texture2D) (rectangle : Range2Di)
    (radius : Int) (imageSize : Vector2i)
    (hguard : (!env.targetGLES && !env.framebufferObject) = false)
    (hs : env.checkStatus = Status.Complete) (v : Version)
    (hv : selectedVersion env = some v)
    (hc : env.compileOk v (vertexSources env) (fragmentSources env radius) = true)
    (hl : env.linkOk v (vertexSources env) (fragmentSources env radius) = true) :
    distanceField env input output rectangle radius imageSize =
      ⟨framebufferStage output rectangle ++ (compileStage env radius v ++ linkStage env
          ++ samplerStage env)
        ++ uniformStage env (resolveUniforms env) input rectangle imageSize ++ drawStage env,
       Exit.returned⟩ := by
  rw [distanceField_eq]
  rcases constructorTrace_cases env radius with ⟨h0, h1, h2⟩ | ⟨w, hw, h | h | h⟩
  · simp [hv] at h1
  · rw [hv] at hw; cases hw; simp_all
  · rw [hv] at hw; cases hw; simp_all
  · rw [hv] at hw; cases hw
    obtain ⟨h0, h2, -, -⟩ := h
    simp [hguard, hs, h0, h2]

/-- The draw is issued only in a run of the shape of `distanceField_success`. -/
theorem draw_mem_iff (env : Env) (input output : Texture2D) (rectangle : Range2Di)
    (radius : Int) (imageSize : Vector2i) (m : Mesh) :
    Effect.draw m ∈ (distanceField env input output rectangle radius imageSize).trace ↔
      ((!env.targetGLES && !env.framebufferObject) = false
        ∧ env.checkStatus = Status.Complete ∧ programBuilt env radius = true
        ∧ m = buildMesh env) := by
  rw [distanceField_eq]
  by_cases hg : (!env.targetGLES && !env.framebufferObject) = true
  · simp [hg]
  · have hg2 : (!env.targetGLES && !env.framebufferObject) = false := by simpa using hg
    simp only [hg2]
    by_cases hs : env.checkStatus = Status.Complete
    · rcases constructorTrace_cases env radius with ⟨h0, h1, h2⟩ | ⟨v, hv, h | h | h⟩
      · simp [h0, h1, h2, hs, framebufferStage]
      · obtain ⟨h0, h2, h3⟩ := h
        simp [h0, h2, h3, hv, hs, framebufferStage, compileStage]
      · obtain ⟨h0, h2, h3, h4⟩ := h
        simp [h0, h2, h3, h4, hv, hs, framebufferStage, compileStage, linkStage]
      · obtain ⟨h0, h2, h3, h4⟩ := h
        simp [h0, h2, h3, h4, hv, hs, framebufferStage, compileStage, linkStage, drawStage,
          samplerStage, uniformStage, DistanceFieldShader.setScaling,
          DistanceFieldShader.bindTexture, DistanceFieldShader.setImageSizeInverted]
    · simp [hs, framebufferStage]

/-! ## C1: the draw and the completeness status -/

/-- C1, counterexample: with a driver that fails to compile the shaders, the
status returned by `checkStatus` is `Complete` and no draw call is issued, so
"the draw is issued if and only if the status is Complete" fails. -/
theorem complete_without_draw :
    Effect.checkStatusDraw
        ∈ (distanceField brokenCompiler exampleInput exampleOutput exampleRectangle 4 ⟨0, 0⟩).trace
    ∧ ¬ ((∃ m, Effect.draw m
          ∈ (distanceField brokenCompiler exampleInput exampleOutput exampleRectangle 4
              ⟨0, 0⟩).trace)
        ↔ brokenCompiler.checkStatus = Status.Complete) := by
  refine ⟨by decide, ?_⟩
  intro h
  obtain ⟨m, hm⟩ := h.2 rfl
  have := (draw_mem_iff _ _ _ _ _ _ _).1 hm
  exact absurd this.2.2.1 (by decide)

/-- C1 (amended): in every run in which `checkStatus` is called, the draw call
is issued if and only if the status is `Complete` and the shader program builds
(a candidate version is supported, both stages compile, the program links);
when the status is not `Complete` the function returns after reporting an
error that carries exactly that status, and the run has no call that builds
the program, uploads geometry or draws. -/
theorem draw_iff_complete_and_built (env : Env) (input output : Texture2D)
    (rectangle : Range2Di) (radius : Int) (imageSize : Vector2i)
    (hcheck : Effect.checkStatusDraw
      ∈ (distanceField env input output rectangle radius imageSize).trace) :
    ((∃ m, Effect.draw m ∈ (distanceField env input output rectangle radius imageSize).trace)
        ↔ (env.checkStatus = Status.Complete
            ∧ ∃ v, selectedVersion env = some v
              ∧ env.compileOk v (vertexSources env) (fragmentSources env radius) = true
              ∧ env.linkOk v (vertexSources env) (fragmentSources env radius) = true))
    ∧ (env.checkStatus ≠ Status.Complete →
        (distanceField env input output rectangle radius imageSize).exit = Exit.returned
        ∧ Effect.error errorMessage env.checkStatus
            ∈ (distanceField env input output rectangle radius imageSize).trace
        ∧ (∀ e ∈ (distanceField env input output rectangle radius imageSize).trace,
            (∀ msg s, e = Effect.error msg s → s = env.checkStatus)
            ∧ (∀ v t, e ≠ Effect.createCompatibilityShader v t)
            ∧ (∀ t s, e ≠ Effect.addSource t s)
            ∧ e ≠ Effect.compile ∧ e ≠ Effect.attachShaders ∧ e ≠ Effect.link
            ∧ (∀ l n, e ≠ Effect.bindAttributeLocation l n)
            ∧ (∀ d, e ≠ Effect.bufferSetData d)
            ∧ (∀ m, e ≠ Effect.draw m))) := by
  have hguard := guard_of_checked env input output rectangle radius imageSize hcheck
  refine ⟨?_, ?_⟩
  · rw [← programBuilt_iff]
    constructor
    · rintro ⟨m, hm⟩
      have := (draw_mem_iff _ _ _ _ _ _ _).1 hm
      exact ⟨this.2.1, this.2.2.1⟩
    · rintro ⟨hs, hb⟩
      exact ⟨buildMesh env, (draw_mem_iff _ _ _ _ _ _ _).2 ⟨hguard, hs, hb, rfl⟩⟩
  · intro hs
    rw [distanceField_eq]
    simp [hguard, hs, framebufferStage]

/-- C1, witness: a desktop context whose output texture gives `Unsupported`. -/
theorem draw_iff_complete_and_built_witness :
    Effect.checkStatusDraw
        ∈ (distanceField unsupportedOutput exampleInput exampleOutput exampleRectangle 4
            ⟨0, 0⟩).trace
    ∧ unsupportedOutput.checkStatus ≠ Status.Complete
    ∧ Effect.error errorMessage Status.Unsupported
        ∈ (distanceField unsupportedOutput exampleInput exampleOutput exampleRectangle 4
            ⟨0, 0⟩).trace :=
  ⟨by decide, by decide,
   ((draw_iff_complete_and_built unsupportedOutput exampleInput exampleOutput exampleRectangle 4
      ⟨0, 0⟩ (by decide)).2 (by decide)).2.1⟩

/-! ## C2: the radius is not validated -/

/-- C2, counterexample: a call with radius `0` on a desktop OpenGL 3.3 context
adds `#define RADIUS 0` to the fragment stage, compiles, links and draws. -/
theorem radius_zero_builds_and_draws :
    (0 : Int) ≤ 0
    ∧ Effect.addSource ShaderType.Fragment "#define RADIUS 0\n"
        ∈ (distanceField desktopGL33 exampleInput exampleOutput exampleRectangle 0 ⟨0, 0⟩).trace
    ∧ Effect.compile
        ∈ (distanceField desktopGL33 exampleInput exampleOutput exampleRectangle 0 ⟨0, 0⟩).trace
    ∧ Effect.link
        ∈ (distanceField desktopGL33 exampleInput exampleOutput exampleRectangle 0 ⟨0, 0⟩).trace
    ∧ Effect.draw (buildMesh desktopGL33)
        ∈ (distanceField desktopGL33 exampleInput exampleOutput exampleRectangle 0 ⟨0, 0⟩).trace
    ∧ (distanceField desktopGL33 exampleInput exampleOutput exampleRectangle 0 ⟨0, 0⟩).exit
        = Exit.returned := by
  decide

/-- C2 (amended): the radius is not validated. For every call, whatever the
radius (radius <= 0 included), when `checkStatus` is called and gives
`Complete` and a candidate version is supported, the fragment stage is given
`#define RADIUS <radius>` with that radius and the stages are compiled; when
they compile and the program links, the draw is issued and the function
returns. -/
theorem radius_not_validated (env : Env) (input output : Texture2D)
    (rectangle : Range2Di) (radius : Int) (imageSize : Vector2i) (v : Version)
    (hcheck : Effect.checkStatusDraw
      ∈ (distanceField env input output rectangle radius imageSize).trace)
    (hs : env.checkStatus = Status.Complete)
    (hv : selectedVersion env = some v) :
    fragmentAdded (distanceField env input output rectangle radius imageSize).trace
        = [radiusDefine radius, env.rsGet "DistanceFieldShader.frag"]
    ∧ Effect.compile ∈ (distanceField env input output rectangle radius imageSize).trace
    ∧ (env.compileOk v (vertexSources env) (fragmentSources env radius) = true →
        env.linkOk v (vertexSources env) (fragmentSources env radius) = true →
        Effect.draw (buildMesh env)
            ∈ (distanceField env input output rectangle radius imageSize).trace
        ∧ (distanceField env input output rectangle radius imageSize).exit = Exit.returned) := by
  have hguard := guard_of_checked env input output rectangle radius imageSize hcheck
  refine ⟨?_, ?_, ?_⟩
  · rw [distanceField_eq]
    simp only [hguard, hs]
    rcases constructorTrace_cases env radius with ⟨h0, h1, h2⟩ | ⟨w, hw, h | h | h⟩
    · simp [hv] at h1
    · rw [hv] at hw; cases hw
      obtain ⟨h0, h2, h3⟩ := h
      simp [h0, h2, framebufferStage, compileStage, vertexSources, fragmentSources,
        fragmentAdded]
    · rw [hv] at hw; cases hw
      obtain ⟨h0, h2, h3, h4⟩ := h
      simp [h0, h2, framebufferStage, compileStage, vertexSources, fragmentSources,
        fragmentAdded, linkStage]
      split_ifs <;> simp [fragmentAdded]
    · rw [hv] at hw; cases hw
      obtain ⟨h0, h2, h3, h4⟩ := h
      simp [h0, h2, framebufferStage, compileStage, vertexSources, fragmentSources,
        fragmentAdded, linkStage, samplerStage, uniformStage, drawStage,
        DistanceFieldShader.setScaling, DistanceFieldShader.bindTexture,
        DistanceFieldShader.setImageSizeInverted]
      split_ifs <;> simp [fragmentAdded]
  · rw [distanceField_eq]
    simp only [hguard, hs]
    rcases constructorTrace_cases env radius with ⟨h0, h1, h2⟩ | ⟨w, hw, h | h | h⟩
    · simp [hv] at h1
    · simp [h.1, h.2.1, compileStage]
    · simp [h.1, h.2.1, compileStage]
    · simp [h.1, h.2.1, compileStage]
  · intro hc hl
    rw [distanceField_success env input output rectangle radius imageSize hguard hs v hv hc hl]
    simp [drawStage]

/-- C2, witness: radius `-2` on a desktop OpenGL 2.1 context. -/
theorem radius_not_validated_witness :
    (-2 : Int) ≤ 0
    ∧ Effect.draw (buildMesh desktopGL21)
        ∈ (distanceField desktopGL21 exampleInput exampleOutput exampleRectangle (-2) ⟨0, 0⟩).trace :=
  ⟨by decide,
   ((radius_not_validated desktopGL21 exampleInput exampleOutput exampleRectangle (-2) ⟨0, 0⟩
      Version.GL210 (by decide) (by decide) (by decide)).2.2 (by decide)
      (by decide)).1⟩

/-- Vertex data is uploaded only in a successful run on a context without
`GL300` (`GLES300`), and it is the triangle. -/
theorem bufferSetData_mem_iff (env : Env) (input output : Texture2D) (rectangle : Range2Di)
    (radius : Int) (imageSize : Vector2i) (d : List Vector2) :
    Effect.bufferSetData d ∈ (distanceField env input output rectangle radius imageSize).trace ↔
      ((!env.targetGLES && !env.framebufferObject) = false
        ∧ env.checkStatus = Status.Complete ∧ programBuilt env radius = true
        ∧ supportsGL300 env = false ∧ d = triangle) := by
  rw [distanceField_eq]
  by_cases hg : (!env.targetGLES && !env.framebufferObject) = true
  · simp [hg]
  · have hg2 : (!env.targetGLES && !env.framebufferObject) = false := by simpa using hg
    simp only [hg2]
    by_cases hs : env.checkStatus = Status.Complete
    · rcases constructorTrace_cases env radius with ⟨h0, h1, h2⟩ | ⟨v, hv, h | h | h⟩
      · simp [h0, h1, h2, hs, framebufferStage]
      · obtain ⟨h0, h2, h3⟩ := h
        simp [h0, h2, h3, hv, hs, framebufferStage, compileStage]
      · obtain ⟨h0, h2, h3, h4⟩ := h
        simp [h0, h2, h3, h4, hv, hs, framebufferStage, compileStage, linkStage]
      · obtain ⟨h0, h2, h3, h4⟩ := h
        simp [h0, h2, h3, h4, hv, hs, framebufferStage, compileStage, linkStage, drawStage,
          samplerStage, uniformStage, DistanceFieldShader.setScaling,
          DistanceFieldShader.bindTexture, DistanceFieldShader.setImageSizeInverted]
    · simp [hs, framebufferStage]

/-! ## C3: the selected version -/

/-- First supported entry of any candidate list. -/
theorem supportedVersion_first (f : Version → Bool) (l : List Version)
    (h : ∃ v ∈ l, f v = true) :
    ∃ v pre post, supportedVersion f l = some v ∧ l = pre ++ v :: post ∧ f v = true
      ∧ ∀ u ∈ pre, f u = false := by
  induction l with
  | nil => simp at h
  | cons a l ih =>
    by_cases ha : f a = true
    · exact ⟨a, [], l, by simp [supportedVersion, ha], rfl, ha, by simp⟩
    · have hl : ∃ v ∈ l, f v = true := by
        obtain ⟨v, hv, hfv⟩ := h
        rcases List.mem_cons.1 hv with rfl | hv
        · exact absurd hfv ha
        · exact ⟨v, hv, hfv⟩
      obtain ⟨v, pre, post, h1, h2, h3, h4⟩ := ih hl
      refine ⟨v, a :: pre, post, by simp [supportedVersion, ha, h1], by simp [h2], h3, ?_⟩
      intro u hu
      rcases List.mem_cons.1 hu with rfl | hu
      · simpa using ha
      · exact h4 u hu

/-- C3: for every context that supports at least one candidate, the version
the constructor selects is the first supported entry of the ordered candidate
list `[GL320, GL300, GL210]` (desktop) or `[GLES300, GLES200]` (ES): it is
supported, no candidate ranked before it is supported, and no supported
candidate is ranked before it. -/
theorem selectedVersion_first_supported (env : Env)
    (h : ∃ v ∈ candidateVersions env.targetGLES, env.isVersionSupported v = true) :
    candidateVersions env.targetGLES
        = (if env.targetGLES then [Version.GLES300, Version.GLES200]
           else [Version.GL320, Version.GL300, Version.GL210])
    ∧ ∃ v pre post, selectedVersion env = some v
        ∧ candidateVersions env.targetGLES = pre ++ v :: post
        ∧ env.isVersionSupported v = true
        ∧ (∀ u ∈ pre, env.isVersionSupported u = false)
        ∧ (∀ t ∈ candidateVersions env.targetGLES, env.isVersionSupported t = true →
            List.indexOf v (candidateVersions env.targetGLES)
              ≤ List.indexOf t (candidateVersions env.targetGLES)) := by
  refine ⟨rfl, ?_⟩
  obtain ⟨v, pre, post, h1, h2, h3, h4⟩ :=
    supportedVersion_first env.isVersionSupported (candidateVersions env.targetGLES) h
  refine ⟨v, pre, post, h1, h2, h3, h4, ?_⟩
  intro t ht hft
  by_contra hlt
  push_neg at hlt
  have htpre : t ∈ pre := by
    rw [h2] at hlt ht
    by_contra hnot
    have hvpre : List.indexOf v (pre ++ v :: post) ≤ pre.length := by
      by_cases hvp : v ∈ pre
      · rw [List.indexOf_append_of_mem hvp]
        exact le_of_lt (List.indexOf_lt_length.2 hvp)
      · rw [List.indexOf_append_of_not_mem hvp]
        simp
    have htge : pre.length ≤ List.indexOf t (pre ++ v :: post) := by
      rw [List.indexOf_append_of_not_mem hnot]
      exact Nat.le_add_right _ _
    omega
  have := h4 t htpre
  simp [hft] at this

/-- C3, witness: a desktop OpenGL 3.1 context gets `GL300`. -/
theorem selectedVersion_first_supported_witness :
    (∃ v ∈ candidateVersions desktopGL31.targetGLES, desktopGL31.isVersionSupported v = true)
    ∧ selectedVersion desktopGL31 = some Version.GL300
    ∧ ∃ v pre post, selectedVersion desktopGL31 = some v
        ∧ candidateVersions desktopGL31.targetGLES = pre ++ v :: post
        ∧ desktopGL31.isVersionSupported v = true
        ∧ (∀ u ∈ pre, desktopGL31.isVersionSupported u = false)
        ∧ (∀ t ∈ candidateVersions desktopGL31.targetGLES,
            desktopGL31.isVersionSupported t = true →
            List.indexOf v (candidateVersions desktopGL31.targetGLES)
              ≤ List.indexOf t (candidateVersions desktopGL31.targetGLES)) :=
  ⟨⟨Version.GL300, by decide, by decide⟩, by decide,
   (selectedVersion_first_supported desktopGL31 ⟨Version.GL300, by decide, by decide⟩).2⟩

/-! ## C4: the triangle -/

/-- C4: the geometry supplied explicitly is exactly the three positions
`(-1, 1)`, `(-1, -3)`, `(3, 1)`; any buffer data a run uploads is this
triangle; and every point of the viewport `[-1, 1] x [-1, 1]` lies inside or
on the triangle. -/
theorem triangle_covers_viewport (x y : ℚ)
    (hx0 : -1 ≤ x) (hx1 : x ≤ 1) (hy0 : -1 ≤ y) (hy1 : y ≤ 1) :
    triangle = [⟨-1, 1⟩, ⟨-1, -3⟩, ⟨3, 1⟩]
    ∧ (∀ (env : Env) (input output : Texture2D) (rectangle : Range2Di) (radius : Int)
        (imageSize : Vector2i) (d : List Vector2),
        Effect.bufferSetData d
            ∈ (distanceField env input output rectangle radius imageSize).trace →
        d = [⟨-1, 1⟩, ⟨-1, -3⟩, ⟨3, 1⟩])
    ∧ inTriangle triangle ⟨x, y⟩ := by
  refine ⟨rfl, ?_, ?_⟩
  · intro env input output rectangle radius imageSize d hd
    exact ((bufferSetData_mem_iff env input output rectangle radius imageSize d).1 hd).2.2.2.2
  · refine ⟨(2 + y - x) / 4, (1 - y) / 4, (x + 1) / 4, ?_, ?_, ?_, ?_, ?_, ?_⟩
    · linarith
    · linarith
    · linarith
    · ring
    · simp only []; ring
    · simp only []; ring

/-- C4, witness: the bottom-right corner of the viewport. -/
theorem triangle_covers_viewport_witness : inTriangle triangle ⟨1, -1⟩ :=
  (triangle_covers_viewport 1 (-1) (by norm_num) (by norm_num) (by norm_num)
    (by norm_num)).2.2

/-- Every `setUniform` call of a run: which slot it writes and what value. -/
theorem setUniform_mem (env : Env) (input output : Texture2D) (rectangle : Range2Di)
    (radius : Int) (imageSize : Vector2i) (slot : UniformSlot) (loc : Option Int)
    (val : UniformValue)
    (h : Effect.setUniform slot loc val
      ∈ (distanceField env input output rectangle radius imageSize).trace) :
    (slot = UniformSlot.scalingUniform
        ∧ loc = some (resolveUniforms env).scalingUniform
        ∧ val = UniformValue.vector2 (scaling env input rectangle imageSize))
    ∨ (slot = UniformSlot.imageSizeInvertedUniform
        ∧ loc = (resolveUniforms env).imageSizeInvertedUniform
        ∧ supportsGL320 env = false
        ∧ val = UniformValue.vector2
            (Vector2.scalarDiv 1 (Vector2.ofVector2i (sourceSize env input imageSize))))
    ∨ (slot = UniformSlot.textureData
        ∧ loc = some (env.uniformLocation "textureData")
        ∧ val = UniformValue.int textureUnit) := by
  rw [distanceField_eq] at h
  by_cases hg : (!env.targetGLES && !env.framebufferObject) = true
  · simp [hg] at h
  · have hg2 : (!env.targetGLES && !env.framebufferObject) = false := by simpa using hg
    simp only [hg2] at h
    by_cases hs : env.checkStatus = Status.Complete
    · rcases constructorTrace_cases env radius with ⟨h0, h1, h2⟩ | ⟨v, hv, hc | hc | hc⟩
      · simp [h0, h1, h2, hs, framebufferStage] at h
      · obtain ⟨h0, h2, h3⟩ := hc
        simp [h0, h2, h3, hv, hs, framebufferStage, compileStage] at h
      · obtain ⟨h0, h2, h3, h4⟩ := hc
        simp [h0, h2, h3, h4, hv, hs, framebufferStage, compileStage, linkStage] at h
      · obtain ⟨h0, h2, h3, h4⟩ := hc
        simp [h0, h2, h3, h4, hv, hs, framebufferStage, compileStage, linkStage, drawStage,
          samplerStage, uniformStage, DistanceFieldShader.setScaling,
          DistanceFieldShader.bindTexture, DistanceFieldShader.setImageSizeInverted] at h
        rcases h with ⟨-, rfl, rfl, rfl⟩ | ⟨rfl, rfl, rfl⟩ | ⟨h5, rfl, rfl, rfl⟩ <;> simp [*]
    · simp [hs, framebufferStage] at h

/-! ## C5: the scaling -/

theorem floor_le_roundHalfEven (q : ℚ) : ⌊q⌋ ≤ roundHalfEven q := by
  unfold roundHalfEven
  split_ifs <;> omega

theorem roundHalfEven_le_floor_succ (q : ℚ) : roundHalfEven q ≤ ⌊q⌋ + 1 := by
  unfold roundHalfEven
  split_ifs <;> omega

theorem le_roundHalfEven (q : ℚ) (n : Int) (h : (n : ℚ) ≤ q) : n ≤ roundHalfEven q :=
  le_trans (Int.le_floor.2 h) (floor_le_roundHalfEven q)

theorem roundHalfEven_le (q : ℚ) (n : Int) (h : q ≤ (n : ℚ)) : roundHalfEven q ≤ n := by
  rcases eq_or_lt_of_le h with h | h
  · subst h
    unfold roundHalfEven
    simp
  · have : ⌊q⌋ < n := Int.floor_lt.2 h
    have := roundHalfEven_le_floor_succ q
    omega

/-- An integer rounds to itself. -/
theorem roundHalfEven_intCast (n : Int) : roundHalfEven (n : ℚ) = n :=
  le_antisymm (roundHalfEven_le _ _ le_rfl) (le_roundHalfEven _ _ le_rfl)

/-- A value above the midpoint of `[f, f + 1]` rounds up. -/
theorem roundHalfEven_of_gt (q : ℚ) (f : Int) (h1 : (f : ℚ) + 1 / 2 < q) (h2 : q < (f : ℚ) + 1) :
    roundHalfEven q = f + 1 := by
  have hf : ⌊q⌋ = f := Int.floor_eq_iff.2 ⟨by linarith, h2⟩
  unfold roundHalfEven
  rw [hf]
  have h3 : ¬ (q - (f : ℚ) < 1 / 2) := by linarith
  have h4 : 1 / 2 < q - (f : ℚ) := by linarith
  simp only [h3, h4, if_true, if_false]

/-- The exponent of a positive value in the normal range. -/
theorem floatExponent_eq (q : ℚ) (e : Int) (he : -126 ≤ e) (h1 : (2 : ℚ) ^ e ≤ q)
    (h2 : q < (2 : ℚ) ^ (e + 1)) : floatExponent q = e := by
  have hq : 0 < q := lt_of_lt_of_le (by positivity) h1
  have hlog : Int.log 2 q = e := by
    apply le_antisymm
    · have : Int.log 2 q < e + 1 :=
        (Int.lt_zpow_iff_log_lt (b := 2) (by norm_num) hq).1 (by simpa using h2)
      omega
    · exact (Int.zpow_le_iff_le_log (b := 2) (by norm_num) hq).1 (by simpa using h1)
  unfold floatExponent
  rw [abs_of_pos hq, hlog]
  exact max_eq_left he

/-- Evaluation of `roundFloat` from the exponent and the rounded significand. -/
theorem roundFloat_eq (q : ℚ) (e n : Int) (he : -126 ≤ e) (h1 : (2 : ℚ) ^ e ≤ q)
    (h2 : q < (2 : ℚ) ^ (e + 1)) (hn : roundHalfEven (q / (2 : ℚ) ^ (e - 23)) = n) :
    roundFloat q = (n : ℚ) * (2 : ℚ) ^ (e - 23) := by
  unfold roundFloat floatSpacing
  rw [floatExponent_eq q e he h1 h2, hn]

/-- A positive value in the normal range rounds to a value between the two
powers of two around it. -/
theorem roundFloat_bounds (q : ℚ) (hq : 0 < q) (he : -126 ≤ Int.log 2 q) :
    (2 : ℚ) ^ Int.log 2 q ≤ roundFloat q ∧ roundFloat q ≤ (2 : ℚ) ^ (Int.log 2 q + 1) := by
  have hexp : floatExponent q = Int.log 2 q := by
    unfold floatExponent
    rw [abs_of_pos hq]
    exact max_eq_left he
  have hs : (0 : ℚ) < floatSpacing q := by
    unfold floatSpacing
    positivity
  have hlo : (2 : ℚ) ^ Int.log 2 q ≤ q := by
    have := Int.zpow_log_le_self (b := 2) (by norm_num) hq
    simpa using this
  have hhi : q < (2 : ℚ) ^ (Int.log 2 q + 1) := by
    have := Int.lt_zpow_succ_log_self (b := 2) (by norm_num) q
    simpa using this
  have h23 : (2 : ℚ) ^ Int.log 2 q = ((2 ^ 23 : Int) : ℚ) * floatSpacing q := by
    unfold floatSpacing
    rw [hexp, zpow_sub₀ (by norm_num)]
    push_cast
    field_simp
    ring
  have h24 : (2 : ℚ) ^ (Int.log 2 q + 1) = ((2 ^ 24 : Int) : ℚ) * floatSpacing q := by
    unfold floatSpacing
    rw [hexp, zpow_sub₀ (by norm_num), zpow_add₀ (by norm_num)]
    push_cast
    field_simp
    ring
  constructor
  · rw [h23]
    unfold roundFloat
    apply mul_le_mul_of_nonneg_right _ hs.le
    have : ((2 ^ 23 : Int) : ℚ) ≤ q / floatSpacing q := by
      rw [le_div_iff₀ hs, ← h23]
      exact hlo
    exact_mod_cast le_roundHalfEven _ _ this
  · rw [h24]
    unfold roundFloat
    apply mul_le_mul_of_nonneg_right _ hs.le
    have : q / floatSpacing q ≤ ((2 ^ 24 : Int) : ℚ) := by
      rw [div_le_iff₀ hs, ← h24]
      exact hhi.le
    exact_mod_cast roundHalfEven_le _ _ this

/-- A positive 32-bit integer converts to a `Float` between `1` and `2^31`. -/
theorem roundFloat_int_bounds (n : Int) (h0 : 0 < n) (h1 : n < 2147483648) :
    1 ≤ roundFloat (n : ℚ) ∧ roundFloat (n : ℚ) ≤ 2147483648 := by
  have hq : (0 : ℚ) < (n : ℚ) := by exact_mod_cast h0
  have hlo : 0 ≤ Int.log 2 (n : ℚ) := by
    apply (Int.zpow_le_iff_le_log (b := 2) (by norm_num) hq).1
    have : (1 : ℚ) ≤ (n : ℚ) := by exact_mod_cast h0
    simpa using this
  have hhi : Int.log 2 (n : ℚ) < 31 := by
    apply (Int.lt_zpow_iff_log_lt (b := 2) (by norm_num) hq).1
    have : (n : ℚ) < 2147483648 := by exact_mod_cast h1
    norm_num
    exact this
  obtain ⟨hb1, hb2⟩ := roundFloat_bounds (n : ℚ) hq (by omega)
  constructor
  · calc (1 : ℚ) = (2 : ℚ) ^ (0 : Int) := by norm_num
      _ ≤ (2 : ℚ) ^ Int.log 2 (n : ℚ) := zpow_le_zpow_right₀ (by norm_num) hlo
      _ ≤ roundFloat (n : ℚ) := hb1
  · calc roundFloat (n : ℚ) ≤ (2 : ℚ) ^ (Int.log 2 (n : ℚ) + 1) := hb2
      _ ≤ (2 : ℚ) ^ (31 : Int) := zpow_le_zpow_right₀ (by norm_num) (by omega)
      _ = 2147483648 := by norm_num

/-- The `Float` quotient of two `Float`s between `1` and `2^31` is positive. -/
theorem roundFloat_div_pos (a b : ℚ) (ha : 1 ≤ a) (hb0 : 1 ≤ b) (hb1 : b ≤ 2147483648) :
    0 < roundFloat (a / b) := by
  have hb : 0 < b := by linarith
  have hq : 0 < a / b := div_pos (by linarith) hb
  have hlog : -31 ≤ Int.log 2 (a / b) := by
    apply (Int.zpow_le_iff_le_log (b := 2) (by norm_num) hq).1
    rw [le_div_iff₀ hb]
    have h31 : ((2 : ℕ) : ℚ) ^ (-31 : Int) = 1 / 2147483648 := by norm_num
    rw [h31]
    calc 1 / 2147483648 * b ≤ 1 / 2147483648 * 2147483648 := by
          apply mul_le_mul_of_nonneg_left hb1 (by norm_num)
      _ = 1 := by norm_num
      _ ≤ a := ha
  obtain ⟨hb1, -⟩ := roundFloat_bounds (a / b) hq (by omega)
  exact lt_of_lt_of_le (by positivity) hb1

/-- The result of a 32-bit operation without overflow is the exact result,
and every result is below `2^31`. -/
theorem wrapInt_spec (d : Int) :
    wrapInt d < 2147483648
    ∧ (-2147483648 ≤ d → d < 2147483648 → wrapInt d = d) := by
  unfold wrapInt
  constructor <;> omega

theorem roundFloat_64 : roundFloat 64 = 64 := by
  rw [roundFloat_eq 64 6 8388608 (by norm_num) (by norm_num) (by norm_num)
    (by
      have h : (64 : ℚ) / (2 : ℚ) ^ ((6 : Int) - 23) = ((8388608 : Int) : ℚ) := by norm_num
      rw [h, roundHalfEven_intCast])]
  norm_num

theorem roundFloat_48 : roundFloat 48 = 48 := by
  rw [roundFloat_eq 48 5 12582912 (by norm_num) (by norm_num) (by norm_num)
    (by
      have h : (48 : ℚ) / (2 : ℚ) ^ ((5 : Int) - 23) = ((12582912 : Int) : ℚ) := by norm_num
      rw [h, roundHalfEven_intCast])]
  norm_num

theorem roundFloat_64_div_48 : roundFloat (64 / 48) = 11184811 / 8388608 := by
  rw [roundFloat_eq (64 / 48) 0 11184811 (by norm_num) (by norm_num) (by norm_num)
    (by
      have h := roundHalfEven_of_gt ((64 / 48 : ℚ) / (2 : ℚ) ^ ((0 : Int) - 23)) 11184810
        (by norm_num) (by norm_num)
      simpa using h)]
  norm_num

/-- Rounding to the nearest integer moves a value by at most one half. -/
theorem roundHalfEven_error (q : ℚ) : |(roundHalfEven q : ℚ) - q| ≤ 1 / 2 := by
  have h1 : ((⌊q⌋ : Int) : ℚ) ≤ q := Int.floor_le q
  have h2 : q < ((⌊q⌋ : Int) : ℚ) + 1 := Int.lt_floor_add_one q
  rw [abs_le]
  unfold roundHalfEven
  split_ifs <;> push_cast <;> constructor <;> linarith

/-- Rounding a positive value of the normal range to `Float` has a relative
error of at most `2^-24`. -/
theorem roundFloat_error (q : ℚ) (hq : 0 < q) (he : -126 ≤ Int.log 2 q) :
    |roundFloat q - q| ≤ q * (1 / 16777216) := by
  have hexp : floatExponent q = Int.log 2 q := by
    unfold floatExponent
    rw [abs_of_pos hq]
    exact max_eq_left he
  have hs : (0 : ℚ) < floatSpacing q := by
    unfold floatSpacing
    positivity
  have hlo : (2 : ℚ) ^ Int.log 2 q ≤ q := by
    have := Int.zpow_log_le_self (b := 2) (by norm_num) hq
    simpa using this
  have h23 : (2 : ℚ) ^ Int.log 2 q = 8388608 * floatSpacing q := by
    unfold floatSpacing
    rw [hexp, zpow_sub₀ (by norm_num)]
    field_simp
    ring
  have hm := roundHalfEven_error (q / floatSpacing q)
  have hdiff : roundFloat q - q
      = ((roundHalfEven (q / floatSpacing q) : ℚ) - q / floatSpacing q) * floatSpacing q := by
    unfold roundFloat
    field_simp
  rw [hdiff, abs_mul, abs_of_pos hs]
  calc |(roundHalfEven (q / floatSpacing q) : ℚ) - q / floatSpacing q| * floatSpacing q
      ≤ 1 / 2 * floatSpacing q := mul_le_mul_of_nonneg_right hm hs.le
    _ = (8388608 * floatSpacing q) * (1 / 16777216) := by ring
    _ ≤ q * (1 / 16777216) := by
        apply mul_le_mul_of_nonneg_right _ (by norm_num)
        rw [← h23]
        exact hlo

/-- Three relative errors of at most `u` each, in the dividend, the divisor and
the division, give a relative error of at most `4 * u` in the quotient. -/
theorem quotient_error (s r a b v u : ℚ) (hs : 0 < s) (hr : 0 < r) (hu0 : 0 ≤ u)
    (hu : u ≤ 1 / 5) (ha : |a - s| ≤ s * u) (hb : |b - r| ≤ r * u)
    (hv : |v - a / b| ≤ a / b * u) : |v - s / r| ≤ s / r * (4 * u) := by
  obtain ⟨ha1, ha2⟩ := abs_le.1 ha
  obtain ⟨hb1, hb2⟩ := abs_le.1 hb
  obtain ⟨hv1, hv2⟩ := abs_le.1 hv
  have hbpos : 0 < b := by nlinarith
  have hapos : 0 < a := by nlinarith
  have hab : a / b * b = a := div_mul_cancel₀ a hbpos.ne'
  have hsr : s / r * r = s := div_mul_cancel₀ s hr.ne'
  have hvb1 : a * (1 - u) ≤ v * b := by
    have := mul_le_mul_of_nonneg_right (show a / b * (1 - u) ≤ v by linarith) hbpos.le
    rw [mul_right_comm, hab] at this
    exact this
  have hvb2 : v * b ≤ a * (1 + u) := by
    have := mul_le_mul_of_nonneg_right (show v ≤ a / b * (1 + u) by linarith) hbpos.le
    rw [mul_right_comm, hab] at this
    exact this
  have hvpos : 0 ≤ v := by
    have : 0 ≤ v * b := le_trans (by nlinarith) hvb1
    by_contra hneg
    push_neg at hneg
    nlinarith
  rw [abs_le]
  constructor
  · have h1 : s * (1 - u) * (1 - u) ≤ v * (r * (1 + u)) := by
      calc s * (1 - u) * (1 - u) ≤ a * (1 - u) := by
            apply mul_le_mul_of_nonneg_right _ (by linarith)
            linarith
        _ ≤ v * b := hvb1
        _ ≤ v * (r * (1 + u)) := by
            apply mul_le_mul_of_nonneg_left _ hvpos
            linarith
    have h2 : s * (1 - 4 * u) ≤ v * r := by
      have h3 : s * ((1 - 4 * u) * (1 + u)) ≤ s * ((1 - u) * (1 - u)) := by
        apply mul_le_mul_of_nonneg_left _ hs.le
        nlinarith
      have h4 : (s * (1 - 4 * u)) * (1 + u) ≤ (v * r) * (1 + u) := by nlinarith
      exact le_of_mul_le_mul_right h4 (by linarith)
    have h5 : s / r * (1 - 4 * u) ≤ v := by
      rw [div_mul_eq_mul_div, div_le_iff₀ hr]
      exact h2
    linarith
  · have h1 : v * (r * (1 - u)) ≤ s * (1 + u) * (1 + u) := by
      calc v * (r * (1 - u)) ≤ v * b := by
            apply mul_le_mul_of_nonneg_left _ hvpos
            linarith
        _ ≤ a * (1 + u) := hvb2
        _ ≤ s * (1 + u) * (1 + u) := by
            apply mul_le_mul_of_nonneg_right _ (by linarith)
            linarith
    have h2 : v * r ≤ s * (1 + 4 * u) := by
      have h3 : s * ((1 + u) * (1 + u)) ≤ s * ((1 + 4 * u) * (1 - u)) := by
        apply mul_le_mul_of_nonneg_left _ hs.le
        nlinarith
      have h4 : (v * r) * (1 - u) ≤ (s * (1 + 4 * u)) * (1 - u) := by nlinarith
      exact le_of_mul_le_mul_right h4 (by linarith)
    have h5 : v ≤ s / r * (1 + 4 * u) := by
      rw [div_mul_eq_mul_div, le_div_iff₀ hr]
      exact h2
    linarith

/-- The `Float` quotient of two positive 32-bit integers, each converted to
`Float`: it is positive and within a relative error of `2^-22` of the exact
quotient. -/
theorem float_quotient_spec (s r : Int) (hs : 0 < s) (hr0 : 0 < r) (hr1 : r < 2147483648) :
    0 < roundFloat (roundFloat (s : ℚ) / roundFloat (r : ℚ))
    ∧ |roundFloat (roundFloat (s : ℚ) / roundFloat (r : ℚ)) - (s : ℚ) / (r : ℚ)|
        ≤ (s : ℚ) / (r : ℚ) * (1 / 4194304) := by
  have hsq : (0 : ℚ) < (s : ℚ) := by exact_mod_cast hs
  have hrq : (0 : ℚ) < (r : ℚ) := by exact_mod_cast hr0
  have hlog (n : Int) (hn : 0 < n) : 0 ≤ Int.log 2 (n : ℚ) := by
    have hq : (0 : ℚ) < (n : ℚ) := by exact_mod_cast hn
    apply (Int.zpow_le_iff_le_log (b := 2) (by norm_num) hq).1
    have : (1 : ℚ) ≤ (n : ℚ) := by exact_mod_cast hn
    simpa using this
  have ha1 : 1 ≤ roundFloat (s : ℚ) := by
    obtain ⟨hb1, -⟩ := roundFloat_bounds (s : ℚ) hsq (by have := hlog s hs; omega)
    calc (1 : ℚ) = (2 : ℚ) ^ (0 : Int) := by norm_num
      _ ≤ (2 : ℚ) ^ Int.log 2 (s : ℚ) := zpow_le_zpow_right₀ (by norm_num) (hlog s hs)
      _ ≤ roundFloat (s : ℚ) := hb1
  obtain ⟨hb1, hb2⟩ := roundFloat_int_bounds r hr0 hr1
  have hbpos : 0 < roundFloat (r : ℚ) := by linarith
  have hq : 0 < roundFloat (s : ℚ) / roundFloat (r : ℚ) := div_pos (by linarith) hbpos
  have hqlog : -126 ≤ Int.log 2 (roundFloat (s : ℚ) / roundFloat (r : ℚ)) := by
    have : -31 ≤ Int.log 2 (roundFloat (s : ℚ) / roundFloat (r : ℚ)) := by
      apply (Int.zpow_le_iff_le_log (b := 2) (by norm_num) hq).1
      rw [le_div_iff₀ hbpos]
      have h31 : ((2 : ℕ) : ℚ) ^ (-31 : Int) = 1 / 2147483648 := by norm_num
      rw [h31]
      calc 1 / 2147483648 * roundFloat (r : ℚ) ≤ 1 / 2147483648 * 2147483648 := by
            apply mul_le_mul_of_nonneg_left hb2 (by norm_num)
        _ = 1 := by norm_num
        _ ≤ roundFloat (s : ℚ) := ha1
    omega
  refine ⟨roundFloat_div_pos _ _ ha1 hb1 hb2, ?_⟩
  have h := quotient_error (s : ℚ) (r : ℚ) (roundFloat (s : ℚ)) (roundFloat (r : ℚ))
    (roundFloat (roundFloat (s : ℚ) / roundFloat (r : ℚ))) (1 / 16777216) hsq hrq
    (by norm_num) (by norm_num)
    (roundFloat_error _ hsq (by have := hlog s hs; omega))
    (roundFloat_error _ hrq (by have := hlog r hr0; omega))
    (roundFloat_error _ hq hqlog)
  calc _ ≤ (s : ℚ) / (r : ℚ) * (4 * (1 / 16777216)) := h
    _ = (s : ℚ) / (r : ℚ) * (1 / 4194304) := by norm_num

/-- C5, counterexample: for a 64 by 64 source and the 48 by 48 rectangle
`{{16, 16}, {64, 64}}` on a desktop context, the value given to `setScaling`
is `11184811/8388608` in both components, the `Float` nearest to `4/3`, which
is not the source size divided by the size of the rectangle. -/
theorem scaling_not_exact_quotient :
    0 < exampleInput.imageSize0.x ∧ 0 < offsetRectangle.max.x - offsetRectangle.min.x
    ∧ Effect.setUniform UniformSlot.scalingUniform (some 0)
          (UniformValue.vector2 ⟨11184811 / 8388608, 11184811 / 8388608⟩)
        ∈ (distanceField desktopGL21 exampleInput exampleOutput offsetRectangle 4 ⟨0, 0⟩).trace
    ∧ (11184811 / 8388608 : ℚ)
        ≠ (exampleInput.imageSize0.x : ℚ)
            / ((offsetRectangle.max.x - offsetRectangle.min.x : Int) : ℚ) := by
  refine ⟨by decide, by decide, ?_, ?_⟩
  · rw [distanceField_success desktopGL21 exampleInput exampleOutput offsetRectangle 4 ⟨0, 0⟩
      (by decide) (by decide) Version.GL210 (by decide) (by decide) (by decide)]
    have h1 : (resolveUniforms desktopGL21).scalingUniform = 0 := by decide
    have h2 : sourceSize desktopGL21 exampleInput ⟨0, 0⟩ = ⟨64, 64⟩ := by decide
    have h3 : offsetRectangle.size = ⟨48, 48⟩ := by decide
    simp [uniformStage, DistanceFieldShader.setScaling, scaling, h1, h2, h3, Vector2.div,
      Vector2.ofVector2i, roundFloat_64, roundFloat_48, roundFloat_64_div_48]
  · simp [exampleInput, offsetRectangle]
    norm_num

/-- C5 (amended): for every source image size and destination rectangle, both
with positive width and height, the value given to `setScaling` is,
componentwise, the `Float` quotient of the source image size by
`rectangle.size()`, that is `max - min`: both are converted to `Float` and
divided in `Float`, each step rounding to the nearest value, so that the
result is within a relative error of `2^-22` of the exact quotient; both
components are positive; on the desktop build the source size is
`input.imageSize(0)`, whatever the `imageSize` argument. -/
theorem scaling_is_float_quotient (env : Env) (input output : Texture2D)
    (rectangle : Range2Di) (radius : Int) (imageSize : Vector2i) (loc : Option Int)
    (v : Vector2)
    (hpass : Effect.setUniform UniformSlot.scalingUniform loc (UniformValue.vector2 v)
      ∈ (distanceField env input output rectangle radius imageSize).trace)
    (hsx : 0 < (sourceSize env input imageSize).x) (hsy : 0 < (sourceSize env input imageSize).y)
    (hrx : 0 < wrapInt (rectangle.max.x - rectangle.min.x))
    (hry : 0 < wrapInt (rectangle.max.y - rectangle.min.y)) :
    v.x = roundFloat (roundFloat ((sourceSize env input imageSize).x : ℚ)
            / roundFloat (wrapInt (rectangle.max.x - rectangle.min.x) : ℚ))
    ∧ v.y = roundFloat (roundFloat ((sourceSize env input imageSize).y : ℚ)
            / roundFloat (wrapInt (rectangle.max.y - rectangle.min.y) : ℚ))
    ∧ 0 < v.x ∧ 0 < v.y
    ∧ |v.x - ((sourceSize env input imageSize).x : ℚ)
            / (wrapInt (rectangle.max.x - rectangle.min.x) : ℚ)|
        ≤ ((sourceSize env input imageSize).x : ℚ)
            / (wrapInt (rectangle.max.x - rectangle.min.x) : ℚ) * (1 / 4194304)
    ∧ |v.y - ((sourceSize env input imageSize).y : ℚ)
            / (wrapInt (rectangle.max.y - rectangle.min.y) : ℚ)|
        ≤ ((sourceSize env input imageSize).y : ℚ)
            / (wrapInt (rectangle.max.y - rectangle.min.y) : ℚ) * (1 / 4194304)
    ∧ (∀ d : Int, -2147483648 ≤ d → d < 2147483648 → wrapInt d = d)
    ∧ (env.targetGLES = false → sourceSize env input imageSize = input.imageSize0)
    ∧ (env.targetGLES = true → sourceSize env input imageSize = imageSize) := by
  have hv : v = scaling env input rectangle imageSize := by
    rcases setUniform_mem _ _ _ _ _ _ _ _ _ hpass with h | h | h
    · simpa using h.2.2
    · simp at h
    · simp at h
  have hx := float_quotient_spec (sourceSize env input imageSize).x
    (wrapInt (rectangle.max.x - rectangle.min.x)) hsx hrx (wrapInt_spec _).1
  have hy := float_quotient_spec (sourceSize env input imageSize).y
    (wrapInt (rectangle.max.y - rectangle.min.y)) hsy hry (wrapInt_spec _).1
  subst hv
  refine ⟨rfl, rfl, hx.1, hy.1, hx.2, hy.2, fun d => (wrapInt_spec d).2, ?_, ?_⟩
  · intro h; simp [sourceSize, h]
  · intro h; simp [sourceSize, h]

/-- C5, witness: on OpenGL ES 2.0 the `imageSize` argument 64 by 64 and the
48 by 48 rectangle `{{16, 16}, {64, 64}}` give `11184811/8388608`. -/
theorem scaling_is_float_quotient_witness :
    Effect.setUniform UniformSlot.scalingUniform (some 0)
          (UniformValue.vector2 ⟨11184811 / 8388608, 11184811 / 8388608⟩)
        ∈ (distanceField contextES2 exampleInput exampleOutput offsetRectangle 4 ⟨64, 64⟩).trace
    ∧ (11184811 / 8388608 : ℚ)
        = roundFloat (roundFloat ((sourceSize contextES2 exampleInput ⟨64, 64⟩).x : ℚ)
            / roundFloat (wrapInt (offsetRectangle.max.x - offsetRectangle.min.x) : ℚ))
    ∧ (0 : ℚ) < 11184811 / 8388608
    ∧ |(11184811 / 8388608 : ℚ) - ((sourceSize contextES2 exampleInput ⟨64, 64⟩).x : ℚ)
            / (wrapInt (offsetRectangle.max.x - offsetRectangle.min.x) : ℚ)|
        ≤ ((sourceSize contextES2 exampleInput ⟨64, 64⟩).x : ℚ)
            / (wrapInt (offsetRectangle.max.x - offsetRectangle.min.x) : ℚ) * (1 / 4194304) :=
  have hpass : Effect.setUniform UniformSlot.scalingUniform (some 0)
      (UniformValue.vector2 ⟨11184811 / 8388608, 11184811 / 8388608⟩)
      ∈ (distanceField contextES2 exampleInput exampleOutput offsetRectangle 4 ⟨64, 64⟩).trace := by
    rw [distanceField_success contextES2 exampleInput exampleOutput offsetRectangle 4 ⟨64, 64⟩
      (by decide) (by decide) Version.GLES200 (by decide) (by decide) (by decide)]
    have h1 : (resolveUniforms contextES2).scalingUniform = 0 := by decide
    have h2 : sourceSize contextES2 exampleInput ⟨64, 64⟩ = ⟨64, 64⟩ := by decide
    have h3 : offsetRectangle.size = ⟨48, 48⟩ := by decide
    simp [uniformStage, DistanceFieldShader.setScaling, scaling, h1, h2, h3, Vector2.div,
      Vector2.ofVector2i, roundFloat_64, roundFloat_48, roundFloat_64_div_48]
  have h := scaling_is_float_quotient contextES2 exampleInput exampleOutput offsetRectangle 4
    ⟨64, 64⟩ (some 0) ⟨11184811 / 8388608, 11184811 / 8388608⟩ hpass (by decide) (by decide)
    (by decide) (by decide)
  ⟨hpass, h.1, h.2.2.1, h.2.2.2.2.1⟩


/-! ## C6: the range of the kernel output -/

/-- Bounds of `clamp` for ordered limits. -/
theorem clamp_bounds (v lo hi : ℚ) (h : lo ≤ hi) : lo ≤ clamp v lo hi ∧ clamp v lo hi ≤ hi :=
  ⟨le_min (le_max_right v lo) h, min_le_right _ _⟩

/-- C6: for every radius >= 1, every source image content and every centre, the
value the kernel writes, `0.5 + 0.5 * clamp(signedMinDistance / radius, -1, 1)`,
lies in `[0, 1]`. -/
theorem kernel_in_storage_range (inside : Int → Int → Bool) (sqrt : ℚ → ℚ) (radius : Int)
    (cx cy : Int) (hr : 1 ≤ radius) :
    kernel inside sqrt radius cx cy
        = 1 / 2 + 1 / 2
            * clamp (signedMinDistance inside sqrt radius cx cy / (radius : ℚ)) (-1) 1
    ∧ (radius : ℚ) ≠ 0
    ∧ 0 ≤ kernel inside sqrt radius cx cy ∧ kernel inside sqrt radius cx cy ≤ 1 := by
  have hb := clamp_bounds (signedMinDistance inside sqrt radius cx cy / (radius : ℚ)) (-1) 1
    (by norm_num)
  have hne : (radius : ℚ) ≠ 0 := by
    have : (1 : ℚ) ≤ (radius : ℚ) := by exact_mod_cast hr
    linarith
  refine ⟨rfl, hne, ?_, ?_⟩
  · unfold kernel encodeDistance; linarith [hb.1]
  · unfold kernel encodeDistance; linarith [hb.2]

/-- C6, witness: radius 4 on the half-plane image, centre at the origin. -/
theorem kernel_in_storage_range_witness :
    (1 : Int) ≤ 4
    ∧ 0 ≤ kernel exampleImage (fun q => q) 4 0 0 ∧ kernel exampleImage (fun q => q) 4 0 0 ≤ 1 :=
  ⟨by decide, (kernel_in_storage_range exampleImage (fun q => q) 4 0 0 (by decide)).2.2⟩

/-! ## C7: the radius is baked into the fragment stage -/

/-- A run makes no call at all, or starts with the framebuffer calls and
checks the status only once. -/
theorem trace_shape (env : Env) (input output : Texture2D) (rectangle : Range2Di)
    (radius : Int) (imageSize : Vector2i) :
    (distanceField env input output rectangle radius imageSize).trace = []
    ∨ ∃ rest, (distanceField env input output rectangle radius imageSize).trace
          = framebufferStage output rectangle ++ rest
        ∧ Effect.checkStatusDraw ∉ rest := by
  rw [distanceField_eq]
  by_cases hg : (!env.targetGLES && !env.framebufferObject) = true
  · simp [hg]
  · have hg2 : (!env.targetGLES && !env.framebufferObject) = false := by simpa using hg
    simp only [hg2]
    right
    by_cases hs : env.checkStatus = Status.Complete
    · rcases constructorTrace_cases env radius with ⟨h0, h1, h2⟩ | ⟨v, hv, hc | hc | hc⟩
      · exact ⟨[], by simp [h0, h2, hs]⟩
      · exact ⟨compileStage env radius v, by simp [hc.1, hc.2.1, hs, compileStage]⟩
      · exact ⟨compileStage env radius v ++ linkStage env,
          by simp [hc.1, hc.2.1, hs, compileStage, linkStage]⟩
      · refine ⟨compileStage env radius v ++ linkStage env ++ samplerStage env
          ++ uniformStage env (resolveUniforms env) input rectangle imageSize ++ drawStage env,
          ?_⟩
        simp [hc.1, hc.2.1, hs, compileStage, linkStage, samplerStage, uniformStage, drawStage,
          DistanceFieldShader.setScaling, DistanceFieldShader.bindTexture,
          DistanceFieldShader.setImageSizeInverted]
    · exact ⟨[Effect.error errorMessage env.checkStatus], by simp [hs]⟩

/-- C8: in every run the calls made before the completeness check are exactly:
attach the output texture, bind, clear the colour attachment; and on the
failure path (the check is made and the status is not `Complete`) the calls of
the run are exactly: attach, bind, clear, check status, report the error, after
which the function returns. -/
theorem clear_precedes_check (env : Env) (input output : Texture2D) (rectangle : Range2Di)
    (radius : Int) (imageSize : Vector2i) :
    (∀ pre post, (distanceField env input output rectangle radius imageSize).trace
        = pre ++ Effect.checkStatusDraw :: post →
      pre = [Effect.attachTexture 0 output 0, Effect.framebufferBind rectangle,
             Effect.framebufferClearColor])
    ∧ (Effect.checkStatusDraw
          ∈ (distanceField env input output rectangle radius imageSize).trace →
        env.checkStatus ≠ Status.Complete →
        distanceField env input output rectangle radius imageSize
          = ⟨[Effect.attachTexture 0 output 0, Effect.framebufferBind rectangle,
              Effect.framebufferClearColor, Effect.checkStatusDraw,
              Effect.error errorMessage env.checkStatus], Exit.returned⟩) := by
  refine ⟨?_, ?_⟩
  · intro pre post h
    rcases trace_shape env input output rectangle radius imageSize with h0 | ⟨rest, h1, h2⟩
    · rw [h0] at h
      simp at h
    · rw [h1] at h
      rcases pre with _ | ⟨p1, _ | ⟨p2, _ | ⟨p3, _ | ⟨p4, pre⟩⟩⟩⟩
      · simp [framebufferStage] at h
      · simp [framebufferStage] at h
      · simp [framebufferStage] at h
      · simp [framebufferStage] at h
        simp [h]
      · simp [framebufferStage] at h
        exact absurd (by rw [h.2.2.2.2]; simp) h2
  · intro hcheck hs
    have hguard := guard_of_checked env input output rectangle radius imageSize hcheck
    rw [distanceField_eq]
    simp [hguard, hs, framebufferStage]

/-- C8, witness: the failure path on a desktop context whose output texture
gives `Unsupported`. -/
theorem clear_precedes_check_witness :
    distanceField unsupportedOutput exampleInput exampleOutput exampleRectangle 4 ⟨0, 0⟩
      = ⟨[Effect.attachTexture 0 exampleOutput 0, Effect.framebufferBind exampleRectangle,
          Effect.framebufferClearColor, Effect.checkStatusDraw,
          Effect.error errorMessage Status.Unsupported], Exit.returned⟩ :=
  (clear_precedes_check unsupportedOutput exampleInput exampleOutput exampleRectangle 4
    ⟨0, 0⟩).2 (by decide) (by decide)

/-! ## C9: the mesh and the vertex data -/

/-- C9: on every successful run (the draw is issued) the mesh drawn is a
`Triangles` mesh of count 3; vertex data is uploaded and attached to the mesh
if and only if the context does not support `GL300` (`GLES300` on ES), which
is also exactly when the constructor binds the attribute location of
`position`; when the context supports it, no vertex data is uploaded, the mesh
has no vertex buffer and no attribute location is bound. -/
theorem vertex_data_iff_no_vertex_id (env : Env) (input output : Texture2D)
    (rectangle : Range2Di) (radius : Int) (imageSize : Vector2i) (m : Mesh)
    (hdraw : Effect.draw m ∈ (distanceField env input output rectangle radius imageSize).trace) :
    m.primitive = MeshPrimitive.Triangles ∧ m.count = 3
    ∧ supportsGL300 env
        = env.isVersionSupported (if env.targetGLES then Version.GLES300 else Version.GL300)
    ∧ ((Effect.bufferSetData triangle
            ∈ (distanceField env input output rectangle radius imageSize).trace
          ∧ m.vertexBuffers = [⟨triangle, 0, 0⟩])
        ↔ supportsGL300 env = false)
    ∧ (Effect.bindAttributeLocation 0 "position"
            ∈ (distanceField env input output rectangle radius imageSize).trace
        ↔ supportsGL300 env = false)
    ∧ (supportsGL300 env = true →
        (∀ d, Effect.bufferSetData d
            ∉ (distanceField env input output rectangle radius imageSize).trace)
        ∧ m.vertexBuffers = []
        ∧ ∀ l n, Effect.bindAttributeLocation l n
            ∉ (distanceField env input output rectangle radius imageSize).trace) := by
  obtain ⟨hguard, hs, hb, rfl⟩ := (draw_mem_iff _ _ _ _ _ _ _).1 hdraw
  obtain ⟨v, hv, hc, hl⟩ := (programBuilt_iff env radius).1 hb
  rw [distanceField_success env input output rectangle radius imageSize hguard hs v hv hc hl]
  have hdef : supportsGL300 env
      = env.isVersionSupported (if env.targetGLES then Version.GLES300 else Version.GL300) := rfl
  refine ⟨?_, ?_, hdef, ?_⟩
  · cases h300 : supportsGL300 env <;>
      simp [buildMesh, h300, Mesh.new, Mesh.setPrimitive, Mesh.setCount, Mesh.addVertexBuffer]
  · cases h300 : supportsGL300 env <;>
      simp [buildMesh, h300, Mesh.new, Mesh.setPrimitive, Mesh.setCount, Mesh.addVertexBuffer]
  · cases h300 : supportsGL300 env <;>
      simp [buildMesh, h300, Mesh.new, Mesh.setPrimitive, Mesh.setCount, Mesh.addVertexBuffer,
        framebufferStage, compileStage, linkStage, samplerStage,
        uniformStage, drawStage, DistanceFieldShader.setScaling,
        DistanceFieldShader.bindTexture, DistanceFieldShader.setImageSizeInverted,
        positionLocation]

/-- C9, witness: OpenGL ES 2.0 has no `gl_VertexID`, the triangle is uploaded. -/
theorem vertex_data_iff_no_vertex_id_witness :
    Effect.draw (buildMesh contextES2)
        ∈ (distanceField contextES2 exampleInput exampleOutput exampleRectangle 4 ⟨64, 64⟩).trace
    ∧ supportsGL300 contextES2 = false
    ∧ Effect.bufferSetData triangle
        ∈ (distanceField contextES2 exampleInput exampleOutput exampleRectangle 4 ⟨64, 64⟩).trace
    ∧ (buildMesh contextES2).vertexBuffers = [⟨triangle, 0, 0⟩] :=
  have h := vertex_data_iff_no_vertex_id contextES2 exampleInput exampleOutput exampleRectangle
    4 ⟨64, 64⟩ (buildMesh contextES2) (by decide)
  ⟨by decide, by decide, (h.2.2.2.1.2 (by decide)).1, (h.2.2.2.1.2 (by decide)).2⟩

/-! ## C10: the location of `imageSizeInverted` -/

/-- The location `setImageSizeInverted` writes to: looked up by name on ES and
on a desktop context without `ARB_explicit_uniform_location`, never assigned
on a desktop context with the extension. -/
theorem imageSizeInverted_location (env : Env) (input output : Texture2D)
    (rectangle : Range2Di) (radius : Int) (imageSize : Vector2i) (loc : Option Int)
    (val : UniformValue)
    (h : Effect.setUniform UniformSlot.imageSizeInvertedUniform loc val
      ∈ (distanceField env input output rectangle radius imageSize).trace) :
    loc = if env.targetGLES || !env.explicitUniformLocation then
            some (env.uniformLocation "imageSizeInverted")
          else none := by
  rcases setUniform_mem _ _ _ _ _ _ _ _ _ h with h | h | h
  · simp at h
  · obtain ⟨-, rfl, h320, -⟩ := h
    unfold resolveUniforms
    split_ifs <;> simp_all
  · simp at h

/-- C10, the failing input evaluated: on a desktop OpenGL 3.1 context with
`ARB_explicit_uniform_location`, the constructor leaves
`imageSizeInvertedUniform` unassigned and `distanceField` passes it to
`setUniform`. -/
theorem imageSizeInverted_read_unassigned :
    desktopGL31.targetGLES = false
    ∧ desktopGL31.explicitUniformLocation = true
    ∧ desktopGL31.isVersionSupported Version.GL320 = false
    ∧ (resolveUniforms desktopGL31).imageSizeInvertedUniform = none
    ∧ Effect.setUniform UniformSlot.imageSizeInvertedUniform none
          (UniformValue.vector2 (Vector2.scalarDiv 1 (Vector2.ofVector2i exampleInput.imageSize0)))
        ∈ (distanceField desktopGL31 exampleInput exampleOutput exampleRectangle 4 ⟨0, 0⟩).trace
    ∧ (distanceField desktopGL31 exampleInput exampleOutput exampleRectangle 4 ⟨0, 0⟩).exit
        = Exit.returned := by
  refine ⟨by decide, by decide, by decide, by decide, ?_, by decide⟩
  rw [distanceField_success desktopGL31 exampleInput exampleOutput exampleRectangle 4 ⟨0, 0⟩
    (by decide) (by decide) Version.GL300 (by decide) (by decide) (by decide)]
  have h1 : (resolveUniforms desktopGL31).imageSizeInvertedUniform = none := by decide
  have h2 : sourceSize desktopGL31 exampleInput ⟨0, 0⟩ = exampleInput.imageSize0 := by decide
  have h3 : supportsGL320 desktopGL31 = false := by decide
  simp [uniformStage, DistanceFieldShader.setImageSizeInverted, h1, h2, h3]

end Magnum
